import Mathlib

/-!
Verification of nix-home-fs (src/main.rs): a minimal read-only FUSE filesystem
with three fixed inodes — 1 (root directory), 2 (`store` symlink), 3 (`var`
symlink) — whose symlink targets resolve per request to the requesting user's
home directory plus `/nix/store` or `/nix/var`.

Modelling conventions:
- Byte strings (`Vec<u8>`, `OsStr` contents) are `List Nat` (each element a
  byte value; all literals in the source are ASCII).
- The host account database (`nix::unistd::User::from_uid`) is an abstract
  parameter `db : Nat → Option (Option (List Nat))`: outer `none` models the
  `Err` result of the lookup, `some none` models "no such user", and
  `some (some dir)` models a user record with home directory `dir`.
- FUSE replies are `Except Nat α`; `reply.error(ENOENT)` is `.error ENOENT`.
- `u64`/`u32` inode, uid and gid values are `Nat` (no arithmetic is performed
  on them); the `i64` readdir offset is `Int`, and the Rust `offset as usize`
  cast is the two's-complement reinterpretation `i64ToUsize`.
- The directory reply sink (`ReplyDirectory`) is modelled by its capacity in
  entries, `cap`: `reply.add` succeeds for the first `cap` entries and reports
  "full" afterwards, matching the monotone fill-up of the real buffer.
-/

/-- Bytes of an ASCII string literal (all literals in the source are ASCII). -/
def strBytes (s : String) : List Nat :=
  s.toList.map Char.toNat

/-- POSIX ENOENT error number, as used by `libc::ENOENT`. -/
def ENOENT : Nat := 2

/-- `const TTL: Duration = Duration::from_secs(1)`, in seconds. -/
def TTL : Nat := 1

/-- The `fuser::FileType` variants used by the program. -/
inductive FileType where
  | Directory
  | Symlink
deriving DecidableEq, Repr

/-- `fuser::FileAttr`; timestamps are seconds since the epoch (`UNIX_EPOCH` is 0). -/
structure FileAttr where
  ino : Nat
  size : Nat
  blocks : Nat
  atime : Nat
  mtime : Nat
  ctime : Nat
  crtime : Nat
  kind : FileType
  perm : Nat
  nlink : Nat
  uid : Nat
  gid : Nat
  rdev : Nat
  flags : Nat
  blksize : Nat
deriving DecidableEq, Repr

/-- `fn get_dir_attr(uid: u32, gid: u32) -> FileAttr`. -/
def get_dir_attr (uid gid : Nat) : FileAttr :=
  { ino := 1
    size := 0
    blocks := 0
    atime := 0
    mtime := 0
    ctime := 0
    crtime := 0
    kind := FileType.Directory
    perm := 0o755
    nlink := 2
    uid := uid
    gid := gid
    rdev := 0
    flags := 0
    blksize := 512 }

/-- `fn get_uid_home_dir(uid: u32) -> Option<Vec<u8>>`:
`User::from_uid(uid).ok()??.dir` — both the `Err` and the `None` outcome of
the host lookup collapse to `none`. -/
def get_uid_home_dir (db : Nat → Option (Option (List Nat))) (uid : Nat) :
    Option (List Nat) :=
  match db uid with
  | some (some dir) => some dir
  | _ => none

/-- `fn get_store_target(uid: u32) -> Vec<u8>`. -/
def get_store_target (db : Nat → Option (Option (List Nat))) (uid : Nat) :
    List Nat :=
  (get_uid_home_dir db uid).getD (strBytes "UNKNOWN_HOME") ++ strBytes "/nix/store"

/-- `fn get_store_attr(uid: u32, gid: u32) -> FileAttr`. -/
def get_store_attr (db : Nat → Option (Option (List Nat))) (uid gid : Nat) :
    FileAttr :=
  { ino := 2
    size := (get_store_target db uid).length
    blocks := 1
    atime := 0
    mtime := 0
    ctime := 0
    crtime := 0
    kind := FileType.Symlink
    perm := 0o777
    nlink := 1
    uid := uid
    gid := gid
    rdev := 0
    flags := 0
    blksize := 512 }

/-- `fn get_var_target(uid: u32) -> Vec<u8>`. -/
def get_var_target (db : Nat → Option (Option (List Nat))) (uid : Nat) :
    List Nat :=
  (get_uid_home_dir db uid).getD (strBytes "UNKNOWN_HOME") ++ strBytes "/nix/var"

/-- `fn get_var_attr(uid: u32, gid: u32) -> FileAttr`. -/
def get_var_attr (db : Nat → Option (Option (List Nat))) (uid gid : Nat) :
    FileAttr :=
  { ino := 3
    size := (get_var_target db uid).length
    blocks := 1
    atime := 0
    mtime := 0
    ctime := 0
    crtime := 0
    kind := FileType.Symlink
    perm := 0o777
    nlink := 1
    uid := uid
    gid := gid
    rdev := 0
    flags := 0
    blksize := 512 }

/-- Strict UTF-8 decoding of a byte sequence to code points, as performed by
Rust's `str` validity rules (`OsStr::to_str`): rejects lone continuation
bytes, overlong encodings (lead bytes `0xC0`/`0xC1`, and range checks on the
3- and 4-byte forms), surrogate code points, code points above `0x10FFFF`,
and lead bytes `0xF5..=0xFF`. -/
def utf8DecodeChars : List Nat → Option (List Char)
  | [] => some []
  | b :: rest =>
    if b < 0x80 then
      (utf8DecodeChars rest).map (fun cs => Char.ofNat b :: cs)
    else if b < 0xC2 then
      none
    else if b < 0xE0 then
      match rest with
      | c :: rest2 =>
        if 0x80 ≤ c ∧ c < 0xC0 then
          (utf8DecodeChars rest2).map
            (fun cs => Char.ofNat ((b - 0xC0) * 0x40 + (c - 0x80)) :: cs)
        else none
      | [] => none
    else if b < 0xF0 then
      match rest with
      | c :: d :: rest2 =>
        if (0x80 ≤ c ∧ c < 0xC0) ∧ (0x80 ≤ d ∧ d < 0xC0) then
          let cp := (b - 0xE0) * 0x1000 + (c - 0x80) * 0x40 + (d - 0x80)
          if cp < 0x800 ∨ (0xD800 ≤ cp ∧ cp < 0xE000) then none
          else (utf8DecodeChars rest2).map (fun cs => Char.ofNat cp :: cs)
        else none
      | _ => none
    else if b < 0xF5 then
      match rest with
      | c :: d :: e :: rest2 =>
        if (0x80 ≤ c ∧ c < 0xC0) ∧ (0x80 ≤ d ∧ d < 0xC0) ∧ (0x80 ≤ e ∧ e < 0xC0) then
          let cp := (b - 0xF0) * 0x40000 + (c - 0x80) * 0x1000 +
            (d - 0x80) * 0x40 + (e - 0x80)
          if cp < 0x10000 ∨ 0x10FFFF < cp then none
          else (utf8DecodeChars rest2).map (fun cs => Char.ofNat cp :: cs)
        else none
      | _ => none
    else none

/-- `OsStr::to_str`: `some` of the decoded string exactly when the bytes are
valid UTF-8. -/
def osStrToStr (bytes : List Nat) : Option String :=
  (utf8DecodeChars bytes).map String.mk

/-- `lookup` callback of `impl Filesystem for NixHomeFS`: the Rust
`match (parent, name.to_str())` with literal patterns `(1, Some("store"))`
and `(1, Some("var"))`, rendered as sequential equality tests.  A successful
reply (`reply.entry(&TTL, &attr, 0)`) carries the TTL, the attribute record
and the generation number 0. -/
def lookup (db : Nat → Option (Option (List Nat))) (uid gid : Nat)
    (parent : Nat) (name : List Nat) : Except Nat (Nat × FileAttr × Nat) :=
  if parent = 1 ∧ osStrToStr name = some "store" then
    .ok (TTL, get_store_attr db uid gid, 0)
  else if parent = 1 ∧ osStrToStr name = some "var" then
    .ok (TTL, get_var_attr db uid gid, 0)
  else
    .error ENOENT

/-- `getattr` callback: `match ino { 1 => dir, 2 => store, 3 => var, _ => ENOENT }`.
A successful reply (`reply.attr(&TTL, &attr)`) carries the TTL and the record. -/
def getattr (db : Nat → Option (Option (List Nat))) (uid gid : Nat)
    (ino : Nat) : Except Nat (Nat × FileAttr) :=
  if ino = 1 then .ok (TTL, get_dir_attr uid gid)
  else if ino = 2 then .ok (TTL, get_store_attr db uid gid)
  else if ino = 3 then .ok (TTL, get_var_attr db uid gid)
  else .error ENOENT

/-- `readlink` callback: `match ino { 2 => store target, 3 => var target, _ => ENOENT }`. -/
def readlink (db : Nat → Option (Option (List Nat))) (uid : Nat)
    (ino : Nat) : Except Nat (List Nat) :=
  if ino = 2 then .ok (get_store_target db uid)
  else if ino = 3 then .ok (get_var_target db uid)
  else .error ENOENT

/-- The fixed `entries` vector of the `readdir` callback. -/
def dirEntries : List (Nat × FileType × String) :=
  [(1, FileType.Directory, "."),
   (1, FileType.Directory, ".."),
   (2, FileType.Symlink, "store"),
   (3, FileType.Symlink, "var")]

/-- The Rust `offset as usize` cast of an `i64` (64-bit two's-complement
reinterpretation). -/
def i64ToUsize (offset : Int) : Nat :=
  (offset % (2 : Int) ^ 64).toNat

/-- `readdir` callback.  `cap` is the entry capacity of the reply buffer:
the loop `for (i, entry) in entries.into_iter().enumerate().skip(offset as usize)`
emits each remaining entry tagged with `(i + 1) as i64` as the next cursor,
breaking when `reply.add` reports the buffer full, then replies ok. -/
def readdir (ino : Nat) (offset : Int) (cap : Nat) :
    Except Nat (List (Nat × Int × FileType × String)) :=
  if ino ≠ 1 then .error ENOENT
  else
    .ok ((((dirEntries.enum).drop (i64ToUsize offset)).take cap).map
      (fun e => (e.2.1, Int.ofNat (e.1 + 1), e.2.2.1, e.2.2.2)))

/-- `struct NixHomeFS;` — the driver type; it has no fields. -/
structure NixHomeFS
deriving DecidableEq, Repr

/-- The `getattr` method as it appears on the driver: it takes the driver
state (`&mut self`) and returns it alongside the reply; the body never
touches `self`. -/
def NixHomeFS.getattrFs (fs : NixHomeFS) (db : Nat → Option (Option (List Nat)))
    (uid gid ino : Nat) : Except Nat (Nat × FileAttr) × NixHomeFS :=
  (getattr db uid gid ino, fs)

/-- `fuser::MountOption`, restricted to the variants the program uses. -/
inductive MountOption where
  | RO
  | FSName (s : String)
  | AllowOther
deriving DecidableEq, Repr

/-- The `options` vector built in `main`. -/
def mountOptions : List MountOption :=
  [MountOption.RO, MountOption.FSName "nix-home-fs", MountOption.AllowOther]

/-- The mounting logic of `main`, after argument parsing: given the outcome
of `Daemonize::start()` and the behaviour of `fuser::mount2` as a function of
the option list, run `mount_fs()?` directly in foreground mode, else
daemonize first and propagate its failure. -/
def mainMount (foreground : Bool) (daemonizeRes : Except Nat Unit)
    (mount2 : List MountOption → Except Nat Unit) : Except Nat Unit :=
  if foreground then
    mount2 mountOptions
  else
    match daemonizeRes with
    | .ok _ => mount2 mountOptions
    | .error e => .error e

/-- The mount behaviour asserted by the claim (not by the code): attempt the
mount with the full option list; on failure retry once with the
`AllowOther` flag removed. -/
def mainMountClaimed (foreground : Bool) (daemonizeRes : Except Nat Unit)
    (mount2 : List MountOption → Except Nat Unit) : Except Nat Unit :=
  let attempt :=
    match mount2 mountOptions with
    | .ok u => .ok u
    | .error _ => mount2 (mountOptions.filter (fun o => o ≠ MountOption.AllowOther))
  if foreground then
    attempt
  else
    match daemonizeRes with
    | .ok _ => attempt
    | .error e => .error e

/-- A mount oracle that fails when the `AllowOther` flag is present and
succeeds otherwise. -/
def mountFailsWithAllowOther : List MountOption → Except Nat Unit :=
  fun opts => if opts = mountOptions then .error 1 else .ok ()

/-- C1: For every uid for which the host account lookup succeeds with a home
directory h, read-symlink-target(2) returns exactly the byte string
h ++ "/nix/store" and read-symlink-target(3) returns exactly h ++ "/nix/var". -/
theorem claim_C1 (db : Nat → Option (Option (List Nat))) (uid : Nat) (h : List Nat)
    (hdb : db uid = some (some h)) :
    readlink db uid 2 = .ok (h ++ strBytes "/nix/store") ∧
    readlink db uid 3 = .ok (h ++ strBytes "/nix/var") := by
  constructor <;>
    simp [readlink, get_store_target, get_var_target, get_uid_home_dir, hdb]

/-- Witness for C1 at a database resolving every uid to `/home/alice`. -/
theorem claim_C1_witness :
    readlink (fun _ => some (some (strBytes "/home/alice"))) 1000 2 =
      .ok (strBytes "/home/alice" ++ strBytes "/nix/store") ∧
    readlink (fun _ => some (some (strBytes "/home/alice"))) 1000 3 =
      .ok (strBytes "/home/alice" ++ strBytes "/nix/var") :=
  claim_C1 (fun _ => some (some (strBytes "/home/alice"))) 1000 (strBytes "/home/alice") rfl

/-- C2: For every uid for which the host account lookup fails, home resolution
falls back to the fixed literal "UNKNOWN_HOME", so read-symlink-target(2) and
read-symlink-target(3) both succeed and their results begin with
"UNKNOWN_HOME"; identity-resolution failure is never reported as an error. -/
theorem claim_C2 (db : Nat → Option (Option (List Nat))) (uid : Nat)
    (hdb : get_uid_home_dir db uid = none) :
    get_store_target db uid = strBytes "UNKNOWN_HOME" ++ strBytes "/nix/store" ∧
    get_var_target db uid = strBytes "UNKNOWN_HOME" ++ strBytes "/nix/var" ∧
    (∃ rest, readlink db uid 2 = .ok (strBytes "UNKNOWN_HOME" ++ rest)) ∧
    (∃ rest, readlink db uid 3 = .ok (strBytes "UNKNOWN_HOME" ++ rest)) := by
  refine ⟨?_, ?_, ⟨strBytes "/nix/store", ?_⟩, ⟨strBytes "/nix/var", ?_⟩⟩ <;>
    simp [readlink, get_store_target, get_var_target, hdb]

/-- Witness for C2 at a database that knows no account. -/
theorem claim_C2_witness :
    get_uid_home_dir (fun _ => some none) 0 = none ∧
    get_store_target (fun _ => some none) 0 = strBytes "UNKNOWN_HOME" ++ strBytes "/nix/store" ∧
    (∃ rest, readlink (fun _ => some none) 0 2 = .ok (strBytes "UNKNOWN_HOME" ++ rest)) := by
  have h := claim_C2 (fun _ => some none) 0 rfl
  exact ⟨rfl, h.1, h.2.2.1⟩

/-- C3: list-directory(1, offset) produces, in fixed order, the four entries
"." (directory, inode 1), ".." (directory, inode 1), "store" (symlink,
inode 2), "var" (symlink, inode 3), skipping the first offset entries and
tagging each emitted entry with its 1-based position as the next resumption
cursor; offset=0 yields exactly [".", "..", "store", "var"] and offset=2
yields exactly ["store", "var"].  `cap` is the entry capacity of the reply
buffer; the buffer is assumed not to fill up (4 ≤ cap). -/
theorem claim_C3 (cap : Nat) (hcap : 4 ≤ cap) :
    (∀ offset : Nat, offset < 2 ^ 63 →
      readdir 1 (offset : Int) cap =
        .ok ([(1, 1, FileType.Directory, "."), (1, 2, FileType.Directory, ".."),
              (2, 3, FileType.Symlink, "store"), (3, 4, FileType.Symlink, "var")].drop offset)) ∧
    readdir 1 0 cap =
      .ok [(1, 1, FileType.Directory, "."), (1, 2, FileType.Directory, ".."),
           (2, 3, FileType.Symlink, "store"), (3, 4, FileType.Symlink, "var")] ∧
    readdir 1 2 cap =
      .ok [(2, 3, FileType.Symlink, "store"), (3, 4, FileType.Symlink, "var")] := by
  have key : ∀ offset : Nat, offset < 2 ^ 63 →
      readdir 1 (offset : Int) cap =
        .ok ([(1, (1 : Int), FileType.Directory, "."), (1, 2, FileType.Directory, ".."),
              (2, 3, FileType.Symlink, "store"), (3, 4, FileType.Symlink, "var")].drop offset) := by
    intro off hoff
    unfold readdir
    rw [if_neg (by decide)]
    have h1 : i64ToUsize (off : Int) = off := by
      unfold i64ToUsize
      omega
    rw [h1]
    have hlen : ((dirEntries.enum).drop off).length ≤ cap := by
      rw [List.length_drop]
      have h4 : (dirEntries.enum).length = 4 := rfl
      omega
    rw [List.take_of_length_le hlen, List.map_drop]
    rfl
  refine ⟨key, ?_, ?_⟩
  · have h0 := key 0 (by norm_num)
    simpa using h0
  · have h2 := key 2 (by norm_num)
    simpa using h2

/-- Witness for C3 at capacity 10. -/
theorem claim_C3_witness :
    4 ≤ 10 ∧
    readdir 1 0 10 =
      .ok [(1, 1, FileType.Directory, "."), (1, 2, FileType.Directory, ".."),
           (2, 3, FileType.Symlink, "store"), (3, 4, FileType.Symlink, "var")] ∧
    readdir 1 2 10 =
      .ok [(2, 3, FileType.Symlink, "store"), (3, 4, FileType.Symlink, "var")] :=
  ⟨by norm_num, (claim_C3 10 (by norm_num)).2.1, (claim_C3 10 (by norm_num)).2.2⟩

/-- C4: every request outside the fixed three-entry namespace is answered
with ENOENT: get-attributes and read-symlink-target on any inode not in
{1,2,3}, read-symlink-target(1) (root is not a symlink), lookup-by-name for
any (parent, name) pair other than (1, "store") and (1, "var"), and
list-directory on any inode other than 1. -/
theorem claim_C4 (db : Nat → Option (Option (List Nat))) (uid gid : Nat) :
    (∀ ino, ino ≠ 1 → ino ≠ 2 → ino ≠ 3 →
      getattr db uid gid ino = .error ENOENT ∧ readlink db uid ino = .error ENOENT) ∧
    readlink db uid 1 = .error ENOENT ∧
    (∀ parent name, ¬(parent = 1 ∧ osStrToStr name = some "store") →
      ¬(parent = 1 ∧ osStrToStr name = some "var") →
      lookup db uid gid parent name = .error ENOENT) ∧
    (∀ ino (offset : Int) (cap : Nat), ino ≠ 1 → readdir ino offset cap = .error ENOENT) := by
  refine ⟨?_, by rfl, ?_, ?_⟩
  · intro ino h1 h2 h3
    constructor <;> simp [getattr, readlink, h1, h2, h3]
  · intro parent name hs hv
    simp [lookup, hs, hv]
  · intro ino offset cap h
    simp [readdir, h]

/-- Witness for C4 at inode 4 and at the name "nonexistent". -/
theorem claim_C4_witness :
    getattr (fun _ => some none) 1000 1000 4 = .error ENOENT ∧
    readlink (fun _ => some none) 1000 4 = .error ENOENT ∧
    readlink (fun _ => some none) 1000 1 = .error ENOENT ∧
    lookup (fun _ => some none) 1000 1000 1 (strBytes "nonexistent") = .error ENOENT ∧
    readdir 4 0 100 = .error ENOENT := by
  obtain ⟨ha, hb, hc, hd⟩ := claim_C4 (fun _ => some none) 1000 1000
  obtain ⟨h1, h2⟩ := ha 4 (by decide) (by decide) (by decide)
  exact ⟨h1, h2, hb, hc 1 (strBytes "nonexistent") (by decide) (by decide),
    hd 4 0 100 (by decide)⟩

/-- C5: for every requester (uid, gid), the attribute records for inodes 2
and 3 have kind symlink, permission bits 0o777, link count 1, block count 1,
and size equal to the byte length of that requester's resolved target
(home ++ "/nix/store" for inode 2, home ++ "/nix/var" for inode 3). -/
theorem claim_C5 (db : Nat → Option (Option (List Nat))) (uid gid : Nat) :
    getattr db uid gid 2 = .ok (TTL, get_store_attr db uid gid) ∧
    getattr db uid gid 3 = .ok (TTL, get_var_attr db uid gid) ∧
    (get_store_attr db uid gid).kind = FileType.Symlink ∧
    (get_store_attr db uid gid).perm = 0o777 ∧
    (get_store_attr db uid gid).nlink = 1 ∧
    (get_store_attr db uid gid).blocks = 1 ∧
    (get_store_attr db uid gid).size = (get_store_target db uid).length ∧
    get_store_target db uid =
      (get_uid_home_dir db uid).getD (strBytes "UNKNOWN_HOME") ++ strBytes "/nix/store" ∧
    (get_var_attr db uid gid).kind = FileType.Symlink ∧
    (get_var_attr db uid gid).perm = 0o777 ∧
    (get_var_attr db uid gid).nlink = 1 ∧
    (get_var_attr db uid gid).blocks = 1 ∧
    (get_var_attr db uid gid).size = (get_var_target db uid).length ∧
    get_var_target db uid =
      (get_uid_home_dir db uid).getD (strBytes "UNKNOWN_HOME") ++ strBytes "/nix/var" :=
  ⟨rfl, rfl, rfl, rfl, rfl, rfl, rfl, rfl, rfl, rfl, rfl, rfl, rfl, rfl⟩

/-- C6: for every two requesters, get-attributes(1) returns records that
agree on kind (directory), permission bits (0o755), link count (2) and
size (0), carry each requester's own uid and gid in the ownership fields,
and differ in no other field. -/
theorem claim_C6 (db : Nat → Option (Option (List Nat))) (u1 g1 u2 g2 : Nat) :
    getattr db u1 g1 1 = .ok (TTL, get_dir_attr u1 g1) ∧
    (get_dir_attr u1 g1).kind = FileType.Directory ∧
    (get_dir_attr u1 g1).perm = 0o755 ∧
    (get_dir_attr u1 g1).nlink = 2 ∧
    (get_dir_attr u1 g1).size = 0 ∧
    (get_dir_attr u1 g1).uid = u1 ∧
    (get_dir_attr u1 g1).gid = g1 ∧
    get_dir_attr u2 g2 = { get_dir_attr u1 g1 with uid := u2, gid := g2 } :=
  ⟨rfl, rfl, rfl, rfl, rfl, rfl, rfl, rfl⟩

/-- Counterexample for C7: with a mount oracle that fails exactly on the full
option list (read-only, fsname, allow-other) and succeeds without the
allow-other flag, `main` propagates the failure instead of retrying — the
claimed retry-without-allow-other behaviour would have succeeded. -/
theorem claim_C7_counterexample :
    mainMount true (.ok ()) mountFailsWithAllowOther = .error 1 ∧
    mountFailsWithAllowOther
      (mountOptions.filter (fun o => o ≠ MountOption.AllowOther)) = .ok () ∧
    mainMountClaimed true (.ok ()) mountFailsWithAllowOther = .ok () ∧
    mainMount true (.ok ()) mountFailsWithAllowOther ≠
      mainMountClaimed true (.ok ()) mountFailsWithAllowOther := by
  refine ⟨rfl, rfl, rfl, ?_⟩
  intro h
  exact Except.noConfusion h

/-- C7 (amended): the mount is requested with options read-only, filesystem
name "nix-home-fs" and allow-other; a single mount attempt is made (in both
the foreground and the daemonized branch) and its outcome — in particular
any failure — is returned as-is, with no retry without the allow-other flag. -/
theorem claim_C7_amended_thm (mount2 : List MountOption → Except Nat Unit)
    (foreground : Bool) :
    mountOptions = [MountOption.RO, MountOption.FSName "nix-home-fs", MountOption.AllowOther] ∧
    mainMount foreground (.ok ()) mount2 = mount2 mountOptions := by
  refine ⟨rfl, ?_⟩
  cases foreground <;> rfl

/-- C8: for a fixed uid, gid and host database, two successive calls to
get-attributes(2) return identical records; the driver state is returned
unchanged, and the driver type holds no mutable state at all (any two of its
values are equal). -/
theorem claim_C8 (fs : NixHomeFS) (db : Nat → Option (Option (List Nat))) (uid gid : Nat) :
    (fs.getattrFs db uid gid 2).1 = (((fs.getattrFs db uid gid 2).2).getattrFs db uid gid 2).1 ∧
    (fs.getattrFs db uid gid 2).2 = fs ∧
    (∀ fs' : NixHomeFS, fs' = fs) := by
  refine ⟨rfl, rfl, ?_⟩
  intro fs'
  cases fs'
  cases fs
  rfl

/-- C9: lookup-by-name matches on the UTF-8 decoding of the name: any byte
sequence that is not valid UTF-8 is rejected with ENOENT for every parent,
and more generally any name whose decoding is neither "store" nor "var" is
rejected with ENOENT. -/
theorem claim_C9 (db : Nat → Option (Option (List Nat))) (uid gid parent : Nat)
    (name : List Nat) :
    (osStrToStr name = none → lookup db uid gid parent name = .error ENOENT) ∧
    (osStrToStr name ≠ some "store" → osStrToStr name ≠ some "var" →
      lookup db uid gid parent name = .error ENOENT) := by
  constructor
  · intro h
    simp [lookup, h]
  · intro h1 h2
    simp [lookup, h1, h2]

/-- Witness for C9 at the undecodable byte sequence [255]. -/
theorem claim_C9_witness :
    osStrToStr [255] = none ∧
    lookup (fun _ => some none) 0 0 1 [255] = .error ENOENT := by
  have h : osStrToStr [255] = none := rfl
  exact ⟨h, (claim_C9 (fun _ => some none) 0 0 1 [255]).1 h⟩

/-- C10: for every listing cursor in the i64 range that is negative or at
least 4, list-directory(1, offset) emits no entries and still succeeds: the
signed offset is cast to an unsigned count of entries to skip, so any
out-of-range cursor yields an empty but successful listing. -/
theorem claim_C10 (offset : Int) (cap : Nat)
    (hlo : -(2 ^ 63) ≤ offset) (hhi : offset < 2 ^ 63)
    (hout : offset < 0 ∨ 4 ≤ offset) :
    readdir 1 offset cap = .ok [] := by
  have h4 : 4 ≤ i64ToUsize offset := by
    unfold i64ToUsize
    omega
  unfold readdir
  rw [if_neg (by decide)]
  have hlen : (dirEntries.enum).length = 4 := rfl
  have hnil : (dirEntries.enum).drop (i64ToUsize offset) = [] :=
    List.drop_eq_nil_of_le (by omega)
  rw [hnil, List.take_nil]
  rfl

/-- Witness for C10 at offset -1 and capacity 100. -/
theorem claim_C10_witness :
    (-(2 ^ 63) ≤ (-1 : Int)) ∧ ((-1 : Int) < 2 ^ 63) ∧
    ((-1 : Int) < 0 ∨ 4 ≤ (-1 : Int)) ∧
    readdir 1 (-1) 100 = .ok [] :=
  ⟨by norm_num, by norm_num, Or.inl (by norm_num),
    claim_C10 (-1) 100 (by norm_num) (by norm_num) (Or.inl (by norm_num))⟩
